import Mathlib

/-!
Shallow embedding of the compliance MVP rule engine (src/rules.py) and the
validation / settings routes (src/app.py), with theorems checking the
specification's claims against it.

Modelling conventions:
* timestamps are integers (minutes); `pd.Timestamp` order becomes `Int` order;
* amounts are rationals (`ℚ`);
* a missing value (`NaN` / `NaT` / `None`) is `Option.none`;
* flag values stay the literal strings the code returns.

`compute_txns_last_window` in rules.py builds a series of ones indexed by the
timestamps, sorts the index, takes `rolling(window).sum()` and reads each
original timestamp back out of the rolled series.  For an offset window pandas
rolls with `closed='right'`, i.e. the window at time `t` is the half-open
interval `(t - window, t]`, and the lookup `counts.get(ts, 0)` recovers, for a
series of unique timestamps, the number of index entries inside that interval.
The embedding below reproduces exactly that; it is faithful whenever the
timestamps are pairwise distinct (with duplicated index labels the pandas
lookup does not return a scalar at all and the surrounding pipeline errors
out), which is why the general theorems below carry a `Nodup` hypothesis.
-/

/-- Python `str.lower()`, modelled structurally over the character list so it
evaluates in the kernel. -/
def lowerStr (s : String) : String :=
  ⟨s.data.map Char.toLower⟩

/-- rules.py `check_kyc_status`: `INCOMPLETE` when the lower-cased status is
not `"complete"`; else `EXPIRED` when the expiry is missing or strictly before
`today`; else `OK`.  The app always passes `today` explicitly. -/
def check_kyc_status (kyc_status : String) (id_expiry : Option Int) (today : Int) : String :=
  if lowerStr kyc_status ≠ "complete" then "INCOMPLETE"
  else
    match id_expiry with
    | none => "EXPIRED"
    | some e => if e < today then "EXPIRED" else "OK"

/-- rules.py `flag_high_value`: `ALERT` iff `txn_amount > threshold`. -/
def flag_high_value (txn_amount threshold : ℚ) : String :=
  if txn_amount > threshold then "ALERT" else "OK"

/-- The membership test pandas' right-closed rolling window applies at anchor
`t` to an index entry `u`: `t - window < u ≤ t`. -/
def inWindow (window t u : Int) : Bool :=
  decide (t - window < u) && decide (u ≤ t)

/-- rules.py `compute_txns_last_window`: sort the timestamps (`sort_index`),
count index entries inside the rolling window at each timestamp
(`rolling(window).sum()` over a series of ones, `closed='right'`), and read
the counts back in the original order of `txn_times` (`counts.get(ts, 0)`).
The window length is in the same integer time unit as the timestamps. -/
def compute_txns_last_window (txn_times : List Int) (window : Int) : List Nat :=
  let sorted := txn_times.insertionSort (· ≤ ·)
  txn_times.map (fun t => sorted.countP (inWindow window t))

/-- The rolled values of `s.rolling(window).sum()` over the *sorted* index,
position by position: the window at each position covers that entry and
earlier entries only, so of several equal timestamps an earlier one does not
count the later ones.  `prev` accumulates the entries already passed. -/
def rolling_sum_go (window : Int) (prev : List Int) : List Int → List Nat
  | [] => []
  | t :: rest =>
    (prev ++ [t]).countP (inWindow window t) :: rolling_sum_go window (prev ++ [t]) rest

/-- `counts.get(label)` on a pandas Series: the values at *every* position
whose index label equals `label` — a scalar only when the label is unique in
the index; with a duplicated label the lookup is a multi-element slice. -/
def series_get (sorted : List Int) (vals : List Nat) (label : Int) : List Nat :=
  ((sorted.zip vals).filter fun p => p.1 == label).map Prod.snd

/-- `compute_txns_last_window` without the unique-timestamp assumption: what
`[counts.get(ts, 0) for ts in times]` actually yields per row, namely the
label slice of the rolled series at that row's timestamp.  A row whose
timestamp is unique gets a one-element slice (the scalar count); rows sharing
a duplicated timestamp all get the same multi-element slice, which is not a
per-row count (and in the real pipeline the non-scalar elements then make the
`compute_frequency_flag` comparison raise, aborting the upload). -/
def compute_txns_last_window_lookups (txn_times : List Int) (window : Int) :
    List (List Nat) :=
  let sorted := txn_times.insertionSort (· ≤ ·)
  let counts := rolling_sum_go window [] sorted
  txn_times.map fun ts => series_get sorted counts ts

/-- rules.py `compute_frequency_flag`: `ALERT` iff the windowed count is
`≥ limit`. -/
def compute_frequency_flag (txns_last_window : List Nat) (limit : Int) : List String :=
  txns_last_window.map (fun (cnt : Nat) => if (cnt : Int) ≥ limit then "ALERT" else "OK")

/-- One row of the per-row flag table handed to `aggregate_agent_risk`. -/
structure FlagRow where
  agent_id : Int
  kyc_flag : String
  aml_flag : String
  frequency_flag : String
deriving DecidableEq

/-- rules.py `_agent_risk` (the closure inside `aggregate_agent_risk`):
`RED` on any `EXPIRED`/`ALERT` flag, else `YELLOW` on any `INCOMPLETE`,
else `GREEN`. -/
def _agent_risk (group : List FlagRow) : String :=
  if (group.any fun r => r.kyc_flag == "EXPIRED")
      || (group.any fun r => r.aml_flag == "ALERT")
      || (group.any fun r => r.frequency_flag == "ALERT") then "RED"
  else if group.any fun r => r.kyc_flag == "INCOMPLETE" then "YELLOW"
  else "GREEN"

/-- The group keys of `df.set_index('agent_id').groupby(level=0)`: the
distinct agent ids, in ascending order (pandas sorts group keys). -/
def groupKeys (rows : List FlagRow) : List Int :=
  ((rows.map FlagRow.agent_id).dedup).insertionSort (· ≤ ·)

/-- rules.py `aggregate_agent_risk`: one `(agent_id, risk_status)` pair per
distinct agent id, in groupby (ascending key) order, where the status is
`_agent_risk` of that agent's rows. -/
def aggregate_agent_risk (rows : List FlagRow) : List (Int × String) :=
  (groupKeys rows).map fun a => (a, _agent_risk (rows.filter fun r => r.agent_id == a))

/-- One validated record of the upload (app.py), after coercion. -/
structure Record where
  agent_id : Int
  agent_name : String
  kyc_status : String
  id_expiry : Int
  txn_amount : ℚ
  txn_time : Int
deriving DecidableEq

/-- app.py upload route, frequency step: the whole `txn_time` column of the
DataFrame — not partitioned by agent — is passed to
`compute_txns_last_window`. -/
def upload_frequency_counts (records : List Record) (window : Int) : List Nat :=
  compute_txns_last_window (records.map Record.txn_time) window

/-- Second definition for comparison, following the specification's words
(§4.4): the count for record `r` is the number of records of the *same agent*
whose `txn_time` lies in the *closed* window `[r.txn_time - window,
r.txn_time]`. -/
def spec_txns_in_window (records : List Record) (window : Int) (r : Record) : Nat :=
  (records.filter fun x =>
    x.agent_id == r.agent_id
      && decide (r.txn_time - window ≤ x.txn_time)
      && decide (x.txn_time ≤ r.txn_time)).length

/-- The process-wide thresholds dictionary of app.py. -/
structure Thresholds where
  high_value : Int
  frequency_window : String
  frequency_limit : Int
deriving DecidableEq

/-- Python `str.strip()`: drop leading and trailing whitespace (modelled
structurally over the character list so it evaluates in the kernel). -/
def stripStr (s : String) : String :=
  ⟨((s.data.dropWhile Char.isWhitespace).reverse.dropWhile Char.isWhitespace).reverse⟩

/-- app.py initial `thresholds` values. -/
def initial_thresholds : Thresholds :=
  { high_value := 1000, frequency_window := "1H", frequency_limit := 3 }

/-- app.py `settings` POST handler.  `high_value` and `frequency_limit` are
the results of Python `int(...)` on the form fields (`none` = parse failure,
which raises before anything is stored); `frequency_window` is taken from the
form and only stripped.  Returns the new thresholds plus `true` when the
update was applied, or the old thresholds plus `false` when it was rejected.
No check of any kind is made on `frequency_window`. -/
def settings_post (th : Thresholds) (high_value : Option Int) (frequency_window : String)
    (frequency_limit : Option Int) : Thresholds × Bool :=
  match high_value, frequency_limit with
  | some hv, some fl =>
    if hv ≤ 0 ∨ fl ≤ 0 then (th, false)
    else ({ high_value := hv, frequency_window := stripStr frequency_window,
            frequency_limit := fl }, true)
  | _, _ => (th, false)

/-! ### Concrete data used by counterexamples -/

/-- Two records of *different* agents ten minutes apart. -/
def pooled_r1 : Record :=
  { agent_id := 1, agent_name := "A", kyc_status := "complete",
    id_expiry := 1000, txn_amount := 10, txn_time := 0 }

/-- Second record, agent 2, ten minutes after `pooled_r1`. -/
def pooled_r2 : Record :=
  { agent_id := 2, agent_name := "B", kyc_status := "complete",
    id_expiry := 1000, txn_amount := 10, txn_time := 10 }

/-- The two-agent dataset exercising the missing per-agent partition. -/
def pooled_records : List Record := [pooled_r1, pooled_r2]

/-! ### Helper lemmas -/

lemma countP_insertionSort (p : Int → Bool) (l : List Int) :
    (l.insertionSort (· ≤ ·)).countP p = l.countP p :=
  (List.perm_insertionSort (· ≤ ·) l).countP_eq p

lemma lookups_singleton_on_distinct_fixture :
    compute_txns_last_window_lookups [0, 30, 90] 60 =
      (compute_txns_last_window [0, 30, 90] 60).map fun n => [n] := by
  decide

/-! ### Claim theorems (first batch) -/

/-- Claim C1 (code bug): the code never partitions by `agent_id`.  On a
dataset with agent 1 transacting at t=0 and agent 2 at t=10 (window 60), the
code emits count 2 for agent 2's record — it counted agent 1's transaction —
while the per-agent count required by the claim and by the spec is 1. -/
theorem freq_counts_pooled_across_agents :
    upload_frequency_counts pooled_records 60 = [1, 2] ∧
    spec_txns_in_window pooled_records 60 pooled_r2 = 1 ∧
    (upload_frequency_counts pooled_records 60).getD 1 0 ≠
      spec_txns_in_window pooled_records 60 pooled_r2 := by
  refine ⟨by decide, by decide, by decide⟩

/-- Claim C2 counterexample: one agent, timestamps 0 and 60, window 60.  The
claim says the record at the exact left boundary (0 = 60 - 60) is included,
so the second count would be 2; the code's right-closed rolling window
excludes it and emits 1. -/
theorem boundary_tie_excluded_counterexample :
    compute_txns_last_window [0, 60] 60 = [1, 1] ∧
    (compute_txns_last_window [0, 60] 60).getD 1 0 ≠ 2 := by
  refine ⟨by decide, by decide⟩

/-- Claim C5: timestamps `[t, t+30m, t+90m]` for one agent with a one-hour
window give counts `[1, 2, 1]` (minutes: `[0, 30, 90]`, window 60). -/
theorem frequency_window_basic_fixture :
    compute_txns_last_window [0, 30, 90] 60 = [1, 2, 1] := by
  decide

/-- Claim C3 counterexample: starting from the initial configuration, a POST
with `high_value = 5`, `frequency_window = "banana"` (no duration parser
accepts this string) and `frequency_limit = 2` is *applied*, replacing all
three fields — the claim says it would be rejected with the prior
configuration left in effect. -/
theorem unparseable_window_accepted :
    settings_post initial_thresholds (some 5) "banana" (some 2) =
      ({ high_value := 5, frequency_window := "banana", frequency_limit := 2 }, true) ∧
    ({ high_value := 5, frequency_window := "banana", frequency_limit := 2 } : Thresholds)
      ≠ initial_thresholds := by
  refine ⟨by decide, by decide⟩

/-- Claim C2 (amended): the frequency window is left-open, right-closed —
`(t - window, t]` — so a record exactly at the left boundary `t - window` is
*not* counted; the record itself always is (for a positive window), hence
every emitted count is at least 1.  For datasets with pairwise distinct
timestamps each count is exactly the number of records in that half-open
interval. -/
theorem window_left_open_and_min_one (times : List Int) (w : Int)
    (hw : 0 < w) (_hnd : times.Nodup) :
    compute_txns_last_window times w =
      times.map (fun t => times.countP (inWindow w t)) ∧
    (∀ c ∈ compute_txns_last_window times w, 1 ≤ c) ∧
    (∀ t : Int, inWindow w t (t - w) = false ∧ inWindow w t t = true) := by
  refine ⟨?_, ?_, ?_⟩
  · simp only [compute_txns_last_window, countP_insertionSort]
  · intro c hc
    simp only [compute_txns_last_window, List.mem_map] at hc
    obtain ⟨t, ht, rfl⟩ := hc
    have hself : inWindow w t t = true := by
      simp only [inWindow, Bool.and_eq_true, decide_eq_true_eq]
      omega
    have : 0 < (times.insertionSort (· ≤ ·)).countP (inWindow w t) := by
      rw [countP_insertionSort]
      exact List.countP_pos_iff.mpr ⟨t, ht, hself⟩
    omega
  · intro t
    constructor
    · simp [inWindow]
    · simp only [inWindow, Bool.and_eq_true, decide_eq_true_eq]
      omega

/-- Witness for the amended C2 theorem at the concrete fixture
`[0, 30, 90]`, window 60. -/
theorem window_left_open_and_min_one_witness :
    (0 : Int) < 60 ∧ ([0, 30, 90] : List Int).Nodup ∧
    (compute_txns_last_window [0, 30, 90] 60 =
        ([0, 30, 90] : List Int).map
          (fun t => ([0, 30, 90] : List Int).countP (inWindow 60 t)) ∧
      (∀ c ∈ compute_txns_last_window [0, 30, 90] 60, 1 ≤ c) ∧
      (∀ t : Int, inWindow 60 t (t - 60) = false ∧ inWindow 60 t t = true)) :=
  ⟨by decide, by decide, window_left_open_and_min_one [0, 30, 90] 60 (by decide) (by decide)⟩

/-- Claim C4 counterexample: on the dataset with the duplicated timestamp
list `[0, 0]` (window 60), the pandas label lookup backing each entry of the
returned series is the two-element slice `[1, 2]`, not a scalar — so on this
input the `i`-th element of what the evaluator returns is *not* the windowed
count for the `i`-th input record, refuting the claim's "for every input
dataset". -/
theorem duplicate_timestamps_break_alignment :
    compute_txns_last_window_lookups [0, 0] 60 = [[1, 2], [1, 2]] ∧
    ((compute_txns_last_window_lookups [0, 0] 60).getD 0 []).length ≠ 1 := by
  refine ⟨by decide, by decide⟩

/-- Claim C4 (amended): for every input dataset whose timestamps are pairwise
distinct — the only datasets on which the label lookup is scalar and the
evaluator returns counts at all — the returned count series has one entry per
input record and its `i`-th entry is the windowed count for the `i`-th input
timestamp: results are aligned to the original row order despite the internal
sort. -/
theorem frequency_counts_aligned_to_input (times : List Int) (w : Int)
    (_hnd : times.Nodup) :
    (compute_txns_last_window times w).length = times.length ∧
    ∀ i : Nat, (compute_txns_last_window times w)[i]? =
      (times[i]?).map fun t => times.countP (inWindow w t) := by
  constructor
  · simp [compute_txns_last_window]
  · intro i
    simp [compute_txns_last_window, List.getElem?_map, countP_insertionSort]

/-- Witness for the amended C4 theorem at the concrete fixture `[0, 30, 90]`,
window 60. -/
theorem frequency_counts_aligned_to_input_witness :
    ([0, 30, 90] : List Int).Nodup ∧
    ((compute_txns_last_window [0, 30, 90] 60).length =
        ([0, 30, 90] : List Int).length ∧
      ∀ i : Nat, (compute_txns_last_window [0, 30, 90] 60)[i]? =
        (([0, 30, 90] : List Int)[i]?).map
          fun t => ([0, 30, 90] : List Int).countP (inWindow 60 t)) :=
  ⟨by decide, frequency_counts_aligned_to_input [0, 30, 90] 60 (by decide)⟩

/-- Claim C3 (amended): an update whose `high_value` or `frequency_limit`
fails integer parsing or is non-positive is rejected with the prior
configuration left fully intact; but `frequency_window` is never validated —
whenever the two numeric fields parse and are positive the update is applied
with the window string stored as given (only stripped). -/
theorem settings_validation_behavior (th : Thresholds) (hv : Option Int)
    (fw : String) (fl : Option Int) :
    (hv = none → settings_post th hv fw fl = (th, false)) ∧
    (fl = none → settings_post th hv fw fl = (th, false)) ∧
    (∀ h l : Int, hv = some h → fl = some l → (h ≤ 0 ∨ l ≤ 0) →
      settings_post th hv fw fl = (th, false)) ∧
    (∀ h l : Int, hv = some h → fl = some l → 0 < h → 0 < l →
      settings_post th hv fw fl =
        ({ high_value := h, frequency_window := stripStr fw,
           frequency_limit := l }, true)) := by
  refine ⟨?_, ?_, ?_, ?_⟩
  · rintro rfl; cases fl <;> rfl
  · rintro rfl; cases hv <;> rfl
  · rintro h l rfl rfl hle
    simp only [settings_post]
    rw [if_pos hle]
  · rintro h l rfl rfl hh hl
    simp only [settings_post]
    rw [if_neg (by omega)]

/-- Witness for the amended C3 theorem: a non-positive `high_value` is
rejected leaving the initial thresholds intact, and a positive update is
applied. -/
theorem settings_validation_behavior_witness :
    settings_post initial_thresholds (some 0) "2H" (some 4) =
      (initial_thresholds, false) ∧
    settings_post initial_thresholds (some 7) "2H" (some 4) =
      ({ high_value := 7, frequency_window := stripStr "2H",
         frequency_limit := 4 }, true) :=
  ⟨(settings_validation_behavior initial_thresholds (some 0) "2H" (some 4)).2.2.1
      0 4 rfl rfl (by decide),
   (settings_validation_behavior initial_thresholds (some 7) "2H" (some 4)).2.2.2
      7 4 rfl rfl (by decide) (by decide)⟩

/-- Claim C6: the KYC classifier returns `INCOMPLETE` whenever the
lower-cased status differs from `"complete"`; otherwise `EXPIRED` exactly
when the expiry is missing or strictly before `today`, and `OK` exactly when
the expiry is on or after `today` (expiry equal to `today` is `OK`). -/
theorem kyc_classification (s : String) (e : Option Int) (t : Int) :
    (lowerStr s ≠ "complete" → check_kyc_status s e t = "INCOMPLETE") ∧
    (lowerStr s = "complete" →
      ((check_kyc_status s e t = "EXPIRED") ↔
        (e = none ∨ ∃ d, e = some d ∧ d < t)) ∧
      ((check_kyc_status s e t = "OK") ↔ (∃ d, e = some d ∧ t ≤ d))) := by
  constructor
  · intro h
    simp [check_kyc_status, h]
  · intro h
    cases e with
    | none => simp [check_kyc_status, h]
    | some d =>
      by_cases hd : d < t
      · simp [check_kyc_status, h, hd]
      · simp [check_kyc_status, h, hd]
        omega

/-- Witness for the C6 theorem: a non-complete status is `INCOMPLETE`; for a
complete status an expiry equal to today is `OK`. -/
theorem kyc_classification_witness :
    check_kyc_status "pending" none 0 = "INCOMPLETE" ∧
    ((check_kyc_status "Complete" (some 5) 5 = "OK") ↔
      (∃ d, (some 5 : Option Int) = some d ∧ (5 : Int) ≤ d)) :=
  ⟨(kyc_classification "pending" none 0).1 (by decide),
   ((kyc_classification "Complete" (some 5) 5).2 (by decide)).2⟩

/-- Claim C9: the AML classifier alerts iff the amount is strictly greater
than the threshold (equality gives `OK`), while the frequency flag alerts iff
the windowed count is greater than or equal to the limit (equality gives
`ALERT`). -/
theorem alert_boundaries (amt thr : ℚ) (counts : List Nat) (lim : Int)
    (i : Nat) (c : Nat) :
    ((flag_high_value amt thr = "ALERT") ↔ thr < amt) ∧
    flag_high_value thr thr = "OK" ∧
    (counts[i]? = some c →
      (((compute_frequency_flag counts lim)[i]? = some "ALERT") ↔
        lim ≤ (c : Int))) := by
  refine ⟨?_, ?_, ?_⟩
  · unfold flag_high_value
    split <;> simp_all
  · simp [flag_high_value]
  · intro hc
    unfold compute_frequency_flag
    rw [List.getElem?_map, hc]
    by_cases hcl : lim ≤ (c : Int)
    · simp [ge_iff_le, hcl]
    · simp [ge_iff_le, hcl]

/-- Witness for the C9 theorem: at amount 3 against threshold 2, and count 3
against limit 3 (the inclusive frequency boundary). -/
theorem alert_boundaries_witness :
    ((flag_high_value 3 2 = "ALERT") ↔ (2 : ℚ) < 3) ∧
    flag_high_value 2 2 = "OK" ∧
    (((compute_frequency_flag [3] 3)[0]? = some "ALERT") ↔
      (3 : Int) ≤ ((3 : Nat) : Int)) :=
  ⟨(alert_boundaries 3 2 [3] 3 0 3).1,
   (alert_boundaries 3 2 [3] 3 0 3).2.1,
   (alert_boundaries 3 2 [3] 3 0 3).2.2 (by decide)⟩

lemma mem_groupKeys {rows : List FlagRow} {a : Int} :
    a ∈ groupKeys rows ↔ a ∈ rows.map FlagRow.agent_id := by
  unfold groupKeys
  rw [(List.perm_insertionSort _ _).mem_iff, List.mem_dedup]

lemma fst_aggregate_agent_risk (rows : List FlagRow) :
    (aggregate_agent_risk rows).map Prod.fst = groupKeys rows := by
  unfold aggregate_agent_risk
  rw [List.map_map]
  show List.map id (groupKeys rows) = groupKeys rows
  exact List.map_id _

/-- Claim C10: the risk summary has exactly one row per distinct `agent_id`
(no duplicates, membership iff the id occurs in the input) and its rows are
in ascending `agent_id` order — the groupby key order, not first-appearance
order. -/
theorem summary_sorted_distinct_agents (rows : List FlagRow) :
    ((aggregate_agent_risk rows).map Prod.fst).Nodup ∧
    List.Sorted (· ≤ ·) ((aggregate_agent_risk rows).map Prod.fst) ∧
    ∀ a : Int, a ∈ (aggregate_agent_risk rows).map Prod.fst ↔
      a ∈ rows.map FlagRow.agent_id := by
  rw [fst_aggregate_agent_risk]
  refine ⟨?_, ?_, ?_⟩
  · exact ((List.perm_insertionSort _ _).nodup_iff).mpr (List.nodup_dedup _)
  · exact List.sorted_insertionSort _ _
  · intro a
    exact mem_groupKeys

lemma mem_aggregate {rows : List FlagRow} {a : Int} {s : String} :
    (a, s) ∈ aggregate_agent_risk rows ↔
      a ∈ rows.map FlagRow.agent_id ∧
        s = _agent_risk (rows.filter fun r => r.agent_id == a) := by
  unfold aggregate_agent_risk
  rw [List.mem_map]
  constructor
  · rintro ⟨b, hb, heq⟩
    have h1 : b = a := congrArg Prod.fst heq
    subst h1
    exact ⟨mem_groupKeys.mp hb, (congrArg Prod.snd heq).symm⟩
  · rintro ⟨ha, rfl⟩
    exact ⟨a, mem_groupKeys.mpr ha, rfl⟩

lemma red_cond_iff (rows : List FlagRow) (a : Int) :
    (((rows.filter fun r => r.agent_id == a).any fun r => r.kyc_flag == "EXPIRED")
        || ((rows.filter fun r => r.agent_id == a).any fun r => r.aml_flag == "ALERT")
        || ((rows.filter fun r => r.agent_id == a).any fun r => r.frequency_flag == "ALERT"))
        = true ↔
      ∃ r ∈ rows, r.agent_id = a ∧
        (r.kyc_flag = "EXPIRED" ∨ r.aml_flag = "ALERT" ∨ r.frequency_flag = "ALERT") := by
  simp [List.any_eq_true, List.mem_filter, beq_iff_eq]
  aesop

lemma yellow_cond_iff (rows : List FlagRow) (a : Int) :
    ((rows.filter fun r => r.agent_id == a).any fun r => r.kyc_flag == "INCOMPLETE") = true ↔
      ∃ r ∈ rows, r.agent_id = a ∧ r.kyc_flag = "INCOMPLETE" := by
  simp [List.any_eq_true, List.mem_filter, beq_iff_eq]

/-- Claim C7: an agent id appears in the risk summary iff it appears in the
input; its status is `RED` whenever some row of that agent has
`kyc_flag = EXPIRED`, `aml_flag = ALERT` or `frequency_flag = ALERT`,
otherwise `YELLOW` whenever some row has `kyc_flag = INCOMPLETE`, and
otherwise `GREEN` — a single qualifying row suffices. -/
theorem agent_risk_aggregation (rows : List FlagRow) (a : Int) :
    ((∃ s, (a, s) ∈ aggregate_agent_risk rows) ↔ a ∈ rows.map FlagRow.agent_id) ∧
    ∀ s, (a, s) ∈ aggregate_agent_risk rows →
      ((∃ r ∈ rows, r.agent_id = a ∧
          (r.kyc_flag = "EXPIRED" ∨ r.aml_flag = "ALERT" ∨ r.frequency_flag = "ALERT")) →
        s = "RED") ∧
      (¬(∃ r ∈ rows, r.agent_id = a ∧
          (r.kyc_flag = "EXPIRED" ∨ r.aml_flag = "ALERT" ∨ r.frequency_flag = "ALERT")) →
        (∃ r ∈ rows, r.agent_id = a ∧ r.kyc_flag = "INCOMPLETE") → s = "YELLOW") ∧
      (¬(∃ r ∈ rows, r.agent_id = a ∧
          (r.kyc_flag = "EXPIRED" ∨ r.aml_flag = "ALERT" ∨ r.frequency_flag = "ALERT")) →
        ¬(∃ r ∈ rows, r.agent_id = a ∧ r.kyc_flag = "INCOMPLETE") → s = "GREEN") := by
  constructor
  · constructor
    · rintro ⟨s, hs⟩
      exact (mem_aggregate.mp hs).1
    · intro ha
      exact ⟨_, mem_aggregate.mpr ⟨ha, rfl⟩⟩
  · intro s hs
    obtain ⟨ha, rfl⟩ := mem_aggregate.mp hs
    unfold _agent_risk
    refine ⟨?_, ?_, ?_⟩
    · intro hred
      rw [if_pos ((red_cond_iff rows a).mpr hred)]
    · intro hnred hyel
      rw [if_neg (fun hcond => hnred ((red_cond_iff rows a).mp hcond)),
        if_pos ((yellow_cond_iff rows a).mpr hyel)]
    · intro hnred hnyel
      rw [if_neg (fun hcond => hnred ((red_cond_iff rows a).mp hcond)),
        if_neg (fun hcond => hnyel ((yellow_cond_iff rows a).mp hcond))]

/-- The flag-table fixture from the repository's own tests, with agents
A, B, C, D rendered as ids 1, 2, 3, 4. -/
def risk_rows : List FlagRow :=
  [{ agent_id := 1, kyc_flag := "OK", aml_flag := "OK", frequency_flag := "OK" },
   { agent_id := 1, kyc_flag := "OK", aml_flag := "ALERT", frequency_flag := "OK" },
   { agent_id := 2, kyc_flag := "INCOMPLETE", aml_flag := "OK", frequency_flag := "OK" },
   { agent_id := 3, kyc_flag := "OK", aml_flag := "OK", frequency_flag := "ALERT" },
   { agent_id := 4, kyc_flag := "OK", aml_flag := "OK", frequency_flag := "OK" }]

/-- Witness for the C7 theorem on the test fixture: agent 1 appears in the
summary, agent 2 (one INCOMPLETE, no red trigger) is `YELLOW`, agent 4 (all
OK) is `GREEN`. -/
theorem agent_risk_aggregation_witness :
    (∃ s, ((1 : Int), s) ∈ aggregate_agent_risk risk_rows) ∧
    "YELLOW" = "YELLOW" ∧ "GREEN" = "GREEN" :=
  ⟨(agent_risk_aggregation risk_rows 1).1.mpr (by decide),
   ((agent_risk_aggregation risk_rows 2).2 "YELLOW" (by decide)).2.1
      (by decide) (by decide),
   ((agent_risk_aggregation risk_rows 4).2 "GREEN" (by decide)).2.2
      (by decide) (by decide)⟩

/-! ### Upload validation (app.py upload route) -/

/-- The six required CSV columns, in the order app.py declares them. -/
def REQUIRED_COLUMNS : List String :=
  ["agent_id", "agent_name", "kyc_status", "id_expiry", "txn_amount", "txn_time"]

/-- A raw uploaded table after `pd.read_csv`: header names plus rows of cells,
`none` being an empty cell (NaN). -/
structure RawTable where
  headers : List String
  rows : List (List (Option String))
deriving DecidableEq

/-- The cells of a named column (`df[name]`): each row's entry at the position
of `name` in the header. -/
def getCol (tbl : RawTable) (name : String) : List (Option String) :=
  tbl.rows.map fun r => r.getD (tbl.headers.findIdx fun h => h == name) none

/-- Column-wise coercion with `errors='coerce'` (as in `pd.to_numeric` /
`pd.to_datetime`): apply the parser to every cell, `none` on failure. -/
def coerceCol (conv : String → Option α) (col : List (Option String)) : List (Option α) :=
  col.map fun c => c.bind conv

/-- The comma stripping `df['txn_amount'].astype(str).str.replace(',', '')`
applied to one cell. -/
def stripCommas (s : String) : String :=
  ⟨s.data.filter fun c => c != ','⟩

/-- The three failure shapes of the upload validation block, mirroring the
three distinct 400 responses of app.py. -/
inductive UploadError where
  | missingColumns (cols : List String)
  | missingValues
  | invalidTypes (cols : List String)
deriving DecidableEq

/-- The three coerced columns returned on success. -/
structure CoercedColumns where
  txn_amount : List ℚ
  txn_time : List Int
  id_expiry : List Int
deriving DecidableEq

/-- `df['txn_amount'].isnull().any()` after comma-stripping and numeric
coercion: some cell of the amount column failed to parse. -/
def amountFails (toNum : String → Option ℚ) (tbl : RawTable) : Bool :=
  (coerceCol (fun s => toNum (stripCommas s)) (getCol tbl "txn_amount")).any Option.isNone

/-- `df['txn_time'].isnull().any()` after datetime coercion. -/
def timeFails (toTime : String → Option Int) (tbl : RawTable) : Bool :=
  (coerceCol toTime (getCol tbl "txn_time")).any Option.isNone

/-- `df['id_expiry'].isnull().any()` after datetime coercion. -/
def expiryFails (toTime : String → Option Int) (tbl : RawTable) : Bool :=
  (coerceCol toTime (getCol tbl "id_expiry")).any Option.isNone

/-- app.py `invalid_columns`: the offending coercion columns, collected in the
fixed order txn_amount, txn_time, id_expiry. -/
def invalid_columns (toNum : String → Option ℚ) (toTime : String → Option Int)
    (tbl : RawTable) : List String :=
  (if amountFails toNum tbl then ["txn_amount"] else []) ++
    (if timeFails toTime tbl then ["txn_time"] else []) ++
    (if expiryFails toTime tbl then ["id_expiry"] else [])

/-- app.py `missing_cols`: the required columns absent from the header, in
required-column order. -/
def missing_cols (tbl : RawTable) : List String :=
  REQUIRED_COLUMNS.filter fun c => !(tbl.headers.contains c)

/-- The upload route's validation block: missing-column check, then the
global null check (`df.isnull().any().any()`), then the three column
coercions, failing with the offending columns; only if all pass are the
coerced columns produced.  The numeric and timestamp parsers (`pd.to_numeric`,
`pd.to_datetime` — external library calls) are parameters. -/
def upload_validate (toNum : String → Option ℚ) (toTime : String → Option Int)
    (tbl : RawTable) : Except UploadError CoercedColumns :=
  if missing_cols tbl ≠ [] then .error (.missingColumns (missing_cols tbl))
  else if tbl.rows.any fun r => r.any Option.isNone then .error .missingValues
  else if invalid_columns toNum toTime tbl ≠ [] then
    .error (.invalidTypes (invalid_columns toNum toTime tbl))
  else .ok
    { txn_amount := (coerceCol (fun s => toNum (stripCommas s)) (getCol tbl "txn_amount")).reduceOption,
      txn_time := (coerceCol toTime (getCol tbl "txn_time")).reduceOption,
      id_expiry := (coerceCol toTime (getCol tbl "id_expiry")).reduceOption }

lemma missing_cols_ne_nil {tbl : RawTable}
    (h : ∃ c ∈ REQUIRED_COLUMNS, c ∉ tbl.headers) : missing_cols tbl ≠ [] := by
  obtain ⟨c, hcR, hcH⟩ := h
  have hc : c ∈ missing_cols tbl := by
    unfold missing_cols
    refine List.mem_filter.mpr ⟨hcR, ?_⟩
    simpa using hcH
  exact List.ne_nil_of_mem hc

lemma missing_cols_eq_nil {tbl : RawTable}
    (h : ∀ c ∈ REQUIRED_COLUMNS, c ∈ tbl.headers) : missing_cols tbl = [] := by
  unfold missing_cols
  rw [List.filter_eq_nil_iff]
  intro c hc
  simpa using h c hc

/-- Claim C8: validation fails with a schema error naming exactly the missing
required columns when a required column is absent; else fails with the
missing-values error when any cell is null; else, when any of the three
coercions fails for some row, fails with a type error naming all offending
columns together (in the fixed order txn_amount, txn_time, id_expiry); and
every failure is terminal — no coerced output is produced. -/
theorem upload_validation_all_or_nothing (toNum : String → Option ℚ)
    (toTime : String → Option Int) (tbl : RawTable) :
    ((∃ c ∈ REQUIRED_COLUMNS, c ∉ tbl.headers) →
      upload_validate toNum toTime tbl = .error (.missingColumns (missing_cols tbl)) ∧
        missing_cols tbl ≠ []) ∧
    ((∀ c ∈ REQUIRED_COLUMNS, c ∈ tbl.headers) → (∃ r ∈ tbl.rows, none ∈ r) →
      upload_validate toNum toTime tbl = .error .missingValues) ∧
    ((∀ c ∈ REQUIRED_COLUMNS, c ∈ tbl.headers) → (∀ r ∈ tbl.rows, none ∉ r) →
      invalid_columns toNum toTime tbl ≠ [] →
      upload_validate toNum toTime tbl =
        .error (.invalidTypes (invalid_columns toNum toTime tbl))) ∧
    (∀ name, name ∈ invalid_columns toNum toTime tbl ↔
      ((name = "txn_amount" ∧ amountFails toNum tbl = true) ∨
        (name = "txn_time" ∧ timeFails toTime tbl = true) ∨
        (name = "id_expiry" ∧ expiryFails toTime tbl = true))) ∧
    (∀ e, upload_validate toNum toTime tbl = .error e →
      ∀ res, upload_validate toNum toTime tbl ≠ .ok res) := by
  refine ⟨?_, ?_, ?_, ?_, ?_⟩
  · intro h
    have hne := missing_cols_ne_nil h
    unfold upload_validate
    rw [if_pos hne]
    exact ⟨rfl, hne⟩
  · intro hcols hnull
    have hmiss := missing_cols_eq_nil hcols
    have hb : (tbl.rows.any fun r => r.any Option.isNone) = true := by
      simp only [List.any_eq_true]
      obtain ⟨r, hr, hc⟩ := hnull
      exact ⟨r, hr, none, hc, rfl⟩
    unfold upload_validate
    rw [if_neg (fun hcontra => hcontra hmiss), if_pos hb]
  · intro hcols hnonull hinv
    have hmiss := missing_cols_eq_nil hcols
    have hb : ¬((tbl.rows.any fun r => r.any Option.isNone) = true) := by
      simp only [List.any_eq_true]
      rintro ⟨r, hr, c, hc, hcn⟩
      cases c with
      | none => exact hnonull r hr hc
      | some v => simp at hcn
    unfold upload_validate
    rw [if_neg (fun hcontra => hcontra hmiss), if_neg hb, if_pos hinv]
  · intro name
    unfold invalid_columns
    by_cases h1 : amountFails toNum tbl <;>
      by_cases h2 : timeFails toTime tbl <;>
        by_cases h3 : expiryFails toTime tbl <;>
          simp [h1, h2, h3]
  · intro e he res hok
    rw [he] at hok
    exact Except.noConfusion hok

/-- A tiny concrete numeric parser for the witness: accepts the two amount
literals used by the witness tables. -/
def wNum : String → Option ℚ :=
  fun s => if s = "9" then some 9 else if s = "1200" then some 1200 else none

/-- A tiny concrete timestamp parser for the witness. -/
def wTime : String → Option Int :=
  fun s => if s = "2025-01-01" then some 20250101 else none

/-- Witness table with the `txn_time` column removed from the header. -/
def tblMissing : RawTable :=
  { headers := ["agent_id", "agent_name", "kyc_status", "id_expiry", "txn_amount"],
    rows := [[some "1", some "A", some "complete", some "2025-01-01", some "9"]] }

/-- Witness table with all columns but one null cell (`agent_name`). -/
def tblNull : RawTable :=
  { headers := REQUIRED_COLUMNS,
    rows := [[some "1", none, some "complete", some "2025-01-01", some "9", some "2025-01-01"]] }

/-- Witness table with all columns, no nulls, but an unparseable `txn_amount`
and an unparseable `id_expiry`. -/
def tblBadTypes : RawTable :=
  { headers := REQUIRED_COLUMNS,
    rows := [[some "1", some "A", some "complete", some "soon", some "abc", some "2025-01-01"]] }

/-- Witness for the C8 theorem: a missing required column, a null cell, and a
double coercion failure each produce the corresponding terminal error. -/
theorem upload_validation_all_or_nothing_witness :
    (upload_validate wNum wTime tblMissing =
        .error (.missingColumns (missing_cols tblMissing)) ∧
      missing_cols tblMissing ≠ []) ∧
    upload_validate wNum wTime tblNull = .error .missingValues ∧
    upload_validate wNum wTime tblBadTypes =
      .error (.invalidTypes (invalid_columns wNum wTime tblBadTypes)) :=
  ⟨(upload_validation_all_or_nothing wNum wTime tblMissing).1
      ⟨"txn_time", by decide, by decide⟩,
   (upload_validation_all_or_nothing wNum wTime tblNull).2.1
      (by decide) ⟨_, List.mem_singleton.mpr rfl, by decide⟩,
   (upload_validation_all_or_nothing wNum wTime tblBadTypes).2.2.1
      (by decide) (by decide) (by decide)⟩
